import Mathlib

/-!
Shallow embedding of the Bazel client's process-identity module for the two
Unix-like platform variants, `blaze_util_illumos.cc` and `blaze_util_solaris.cc`
(namespace `blaze`).  The embedded functions are `GetStartTime`,
`WriteSystemSpecificProcessIdentifier` (the spec's `record`) and
`VerifyServerProcess` (the spec's `check`).

Modelling choices:
  * `psinfo_t.pr_start` is a `timestruc_t` with fields `tv_sec` and `tv_nsec`;
    both are modelled as `Nat` (process start times are non-negative, and the
    code renders them with the `%lu` conversion).
  * The `/proc` table is a function `Nat → Option Psinfo`: `none` models both an
    absent `/proc/<pid>/psinfo` file (`fopen` fails) and a failing `fread`,
    which the C code treats identically (`time_set` stays `false`).
  * `blaze_util::Path` is a list of path components; `GetRelative` appends
    components.  The C call `GetRelative("server/server.starttime")` appends the
    two components `"server"` and `"server.starttime"`.
  * The filesystem is a function `List String → Option String`; `none` models
    `blaze_util::ReadFile` failing, in which case the C `std::string` output
    parameter keeps its initial value `""`.
  * `blaze_util::WriteFile` success is a predicate `writeOk` of the `World`;
    on success the filesystem is updated at the written path.
  * `BAZEL_DIE` terminates the process: modelled as `Except.error` with the
    message identified by an error code.
  * `sprintf(buffer, "%lu", v)` is modelled by `sprintfLu`, the standard
    most-significant-first decimal rendering (one digit minimum, so 0 prints
    as "0"), matching C's `%lu` output for non-negative values.
-/

namespace Blaze

/-- One step of `%lu` rendering: emit the digits of `n` in front of `acc`,
least significant digit computed first, by repeated division by 10. -/
def printLuAux (n : Nat) (acc : List Char) : List Char :=
  if _h : n < 10 then Char.ofNat (48 + n % 10) :: acc
  else printLuAux (n / 10) (Char.ofNat (48 + n % 10) :: acc)
termination_by n
decreasing_by exact Nat.div_lt_self (by omega) (by omega)

/-- Model of `sprintf(buffer, "%lu", n)` for a non-negative value `n`:
the decimal digit string of `n`, never empty (`0` renders as `"0"`). -/
def sprintfLu (n : Nat) : String :=
  String.mk (printLuAux n [])

/-- Number of decimal digits `%lu` emits for `n`. -/
def numDigits (n : Nat) : Nat :=
  if n < 10 then 1 else numDigits (n / 10) + 1
termination_by n
decreasing_by exact Nat.div_lt_self (by omega) (by omega)

/-- Decimal re-reading of a digit list (Horner fold), used to invert
`sprintfLu`. -/
def pf (a : Nat) (cs : List Char) : Nat :=
  cs.foldl (fun x c => x * 10 + (c.toNat - 48)) a

/-- The `timestruc_t` of `<procfs.h>`: the `pr_start` field of `psinfo_t`.
Seconds and nanoseconds since the epoch, both non-negative. -/
structure Timestruc where
  tv_sec : Nat
  tv_nsec : Nat
deriving DecidableEq

/-- The part of `psinfo_t` the module reads: the process start time. -/
structure Psinfo where
  pr_start : Timestruc
deriving DecidableEq

/-- The observable OS state the module interacts with: the `/proc` process
table, the filesystem contents, and which paths `blaze_util::WriteFile`
can write. -/
structure World where
  proc : Nat → Option Psinfo
  fs : List String → Option String
  writeOk : List String → Bool

/-- The two `BAZEL_DIE` sites of `WriteSystemSpecificProcessIdentifier`
(both with exit code `LOCAL_ENVIRONMENTAL_ERROR`). -/
inductive RecordError where
  | cannotGetStartTime
  | cannotWriteStartTime
deriving DecidableEq

namespace Illumos

/-- `GetStartTime` of `blaze_util_illumos.cc`: open `/proc/<pid>/psinfo`,
read a `psinfo_t`, and render `info.pr_start.tv_sec` with `%lu`.  Returns
`none` when the open or the read fails (the C function returns `false`
and leaves the output parameter unset). -/
def GetStartTime (proc : Nat → Option Psinfo) (pid : Nat) : Option String :=
  match proc pid with
  | none => none
  | some info => some (sprintfLu info.pr_start.tv_sec)

/-- `WriteSystemSpecificProcessIdentifier` of `blaze_util_illumos.cc`:
read the server's start time and write it to
`server_dir.GetRelative("server.starttime")`; `BAZEL_DIE` when either
step fails. -/
def WriteSystemSpecificProcessIdentifier (w : World) (server_dir : List String)
    (server_pid : Nat) : Except RecordError World :=
  match GetStartTime w.proc server_pid with
  | none => .error .cannotGetStartTime
  | some start_time =>
    let start_time_file := server_dir ++ ["server.starttime"]
    if w.writeOk start_time_file then
      .ok { w with
            fs := fun q => if q = start_time_file then some start_time else w.fs q }
    else
      .error .cannotWriteStartTime

/-- `VerifyServerProcess` of `blaze_util_illumos.cc`: read the live start
time of `pid` (absent process ⇒ `false`), read
`output_base.GetRelative("server/server.starttime")` into a string that
stays `""` when the read fails, and compare.  Note: the C code computes
`file_present` but never uses it. -/
def VerifyServerProcess (w : World) (pid : Nat) (output_base : List String) : Bool :=
  match GetStartTime w.proc pid with
  | none => false
  | some start_time =>
    let read := w.fs (output_base ++ ["server", "server.starttime"])
    let _file_present := read.isSome
    let recorded_start_time := read.getD ""
    recorded_start_time == start_time

end Illumos

namespace Solaris

/-- `GetStartTime` of `blaze_util_solaris.cc`: identical to the Illumos one
except that it renders `info.pr_start.tv_nsec` (the nanosecond field). -/
def GetStartTime (proc : Nat → Option Psinfo) (pid : Nat) : Option String :=
  match proc pid with
  | none => none
  | some info => some (sprintfLu info.pr_start.tv_nsec)

/-- `WriteSystemSpecificProcessIdentifier` of `blaze_util_solaris.cc`: same
text as the Illumos one (but it calls the Solaris `GetStartTime`). -/
def WriteSystemSpecificProcessIdentifier (w : World) (server_dir : List String)
    (server_pid : Nat) : Except RecordError World :=
  match GetStartTime w.proc server_pid with
  | none => .error .cannotGetStartTime
  | some start_time =>
    let start_time_file := server_dir ++ ["server.starttime"]
    if w.writeOk start_time_file then
      .ok { w with
            fs := fun q => if q = start_time_file then some start_time else w.fs q }
    else
      .error .cannotWriteStartTime

/-- `VerifyServerProcess` of `blaze_util_solaris.cc`: like the Illumos one,
but a missing record file is accepted:
`return !file_present || recorded_start_time == start_time;`. -/
def VerifyServerProcess (w : World) (pid : Nat) (output_base : List String) : Bool :=
  match GetStartTime w.proc pid with
  | none => false
  | some start_time =>
    let read := w.fs (output_base ++ ["server", "server.starttime"])
    let file_present := read.isSome
    let recorded_start_time := read.getD ""
    !file_present || recorded_start_time == start_time

end Solaris

/-! ### Sample worlds used by witnesses and counterexamples -/

/-- A process table with exactly one live process: pid 42, started at
5 seconds and 7 nanoseconds. -/
def sampleProc : Nat → Option Psinfo :=
  fun p => if p = 42 then some ⟨⟨5, 7⟩⟩ else none

/-- A world with process table `sampleProc`, an empty filesystem, and all
writes succeeding. -/
def sampleWorld : World :=
  { proc := sampleProc, fs := fun _ => none, writeOk := fun _ => true }

/-- `sampleWorld` after the Illumos `record` has run for pid 42 with server
directory `["b", "server"]`: the rendering of `tv_sec = 5` is stored at
`["b", "server", "server.starttime"]`. -/
def sampleWorldIllRec : World :=
  { sampleWorld with
    fs := fun q =>
      if q = ["b", "server", "server.starttime"] then some (sprintfLu 5)
      else sampleWorld.fs q }

/-- `sampleWorld` after the Solaris `record` has run for pid 42 with server
directory `["b", "server"]`: the rendering of `tv_nsec = 7` is stored at
`["b", "server", "server.starttime"]`. -/
def sampleWorldSolRec : World :=
  { sampleWorld with
    fs := fun q =>
      if q = ["b", "server", "server.starttime"] then some (sprintfLu 7)
      else sampleWorld.fs q }

/-- `sampleWorld` with a stale record `"3"` (a dead predecessor's start
time) stored at `["b", "server", "server.starttime"]`. -/
def sampleWorldStale : World :=
  { sampleWorld with
    fs := fun q =>
      if q = ["b", "server", "server.starttime"] then some (sprintfLu 3)
      else sampleWorld.fs q }

/-- Pointwise filesystem update: the world after a successful
`WriteFile s p`.  (Equal by unfolding to the world built inside
`WriteSystemSpecificProcessIdentifier`.) -/
def fsUpdate (w : World) (p : List String) (s : String) : World :=
  { w with fs := fun q => if q = p then some s else w.fs q }

/-! ### Properties of the `%lu` rendering -/

theorem printLuAux_ne_nil : ∀ (n : Nat) (acc : List Char), printLuAux n acc ≠ [] := by
  intro n
  induction n using Nat.strong_induction_on with
  | _ n ih =>
    intro acc
    rw [printLuAux]
    split
    · simp
    · exact ih (n / 10) (Nat.div_lt_self (by omega) (by omega)) _

theorem digitChar_isDigit : ∀ d : Nat, d < 10 → (Char.ofNat (48 + d)).isDigit = true := by
  decide

theorem digitChar_toNat : ∀ d : Nat, d < 10 → (Char.ofNat (48 + d)).toNat = 48 + d := by
  decide

theorem mem_printLuAux :
    ∀ (n : Nat) (acc : List Char) (c : Char),
      c ∈ printLuAux n acc → c ∈ acc ∨ c.isDigit = true := by
  intro n
  induction n using Nat.strong_induction_on with
  | _ n ih =>
    intro acc c hc
    rw [printLuAux] at hc
    split at hc
    · rcases List.mem_cons.mp hc with h | h
      · right; subst h; exact digitChar_isDigit _ (Nat.mod_lt _ (by omega))
      · left; exact h
    · rcases ih (n / 10) (Nat.div_lt_self (by omega) (by omega)) _ c hc with h | h
      · rcases List.mem_cons.mp h with h | h
        · right; subst h; exact digitChar_isDigit _ (Nat.mod_lt _ (by omega))
        · left; exact h
      · right; exact h

theorem pf_cons (a : Nat) (c : Char) (cs : List Char) :
    pf a (c :: cs) = pf (a * 10 + (c.toNat - 48)) cs := rfl

theorem pf_printLuAux :
    ∀ (n : Nat) (a : Nat) (acc : List Char),
      pf a (printLuAux n acc) = pf (a * 10 ^ numDigits n + n) acc := by
  intro n
  induction n using Nat.strong_induction_on with
  | _ n ih =>
    intro a acc
    by_cases h : n < 10
    · rw [printLuAux, numDigits, dif_pos h, if_pos h, pf_cons,
        digitChar_toNat _ (Nat.mod_lt _ (by omega))]
      congr 1
      have : n % 10 = n := Nat.mod_eq_of_lt h
      rw [pow_one]
      omega
    · rw [printLuAux, numDigits, dif_neg h, if_neg h,
        ih (n / 10) (Nat.div_lt_self (by omega) (by omega)), pf_cons,
        digitChar_toNat _ (Nat.mod_lt _ (by omega))]
      congr 1
      have h48 : 48 + n % 10 - 48 = n % 10 := by omega
      have hdm : 10 * (n / 10) + n % 10 = n := Nat.div_add_mod n 10
      rw [h48, pow_succ]
      calc (a * 10 ^ numDigits (n / 10) + n / 10) * 10 + n % 10
          = a * (10 ^ numDigits (n / 10) * 10) + (10 * (n / 10) + n % 10) := by ring
        _ = a * (10 ^ numDigits (n / 10) * 10) + n := by rw [hdm]

theorem sprintfLu_roundtrip (n : Nat) : pf 0 (sprintfLu n).data = n := by
  show pf 0 (printLuAux n []) = n
  rw [pf_printLuAux]
  simp [pf]

theorem sprintfLu_injective : Function.Injective sprintfLu := by
  intro m n h
  have hm := sprintfLu_roundtrip m
  rw [h] at hm
  exact hm.symm.trans (sprintfLu_roundtrip n)

theorem sprintfLu_ne_empty (n : Nat) : sprintfLu n ≠ "" := by
  intro h
  exact printLuAux_ne_nil n [] (congrArg String.data h)

theorem sprintfLu_isDigit (n : Nat) :
    ∀ c ∈ (sprintfLu n).data, c.isDigit = true := by
  intro c hc
  rcases mem_printLuAux n [] c hc with h | h
  · cases h
  · exact h

theorem sprintfLu_beq_false {m n : Nat} (h : m ≠ n) :
    (sprintfLu m == sprintfLu n) = false := by
  rw [beq_eq_false_iff_ne]
  exact fun he => h (sprintfLu_injective he)

theorem empty_beq_sprintfLu (n : Nat) : (("" : String) == sprintfLu n) = false := by
  rw [beq_eq_false_iff_ne]
  exact fun he => sprintfLu_ne_empty n he.symm

/-! ### The claims -/

/-- Claim C1: if the record file at `path` stores the start time of the
process originally recorded at `pid` (now exited), and a different process
now runs under the same `pid` with a different `ProcessStartTime` (the
`pr_start` field each platform reads), then `check(pid, path)`
(`VerifyServerProcess`) returns `false`, on both platform variants. -/
theorem c1_pid_reuse_detected (w : World) (pid : Nat) (output_base : List String)
    (oldT : Nat) (info : Psinfo)
    (hfs : w.fs (output_base ++ ["server", "server.starttime"]) = some (sprintfLu oldT))
    (hproc : w.proc pid = some info) :
    (info.pr_start.tv_sec ≠ oldT → Illumos.VerifyServerProcess w pid output_base = false) ∧
    (info.pr_start.tv_nsec ≠ oldT → Solaris.VerifyServerProcess w pid output_base = false) := by
  constructor
  · intro hne
    simp only [Illumos.VerifyServerProcess, Illumos.GetStartTime, hproc, hfs,
      Option.getD_some]
    exact sprintfLu_beq_false (Ne.symm hne)
  · intro hne
    simp only [Solaris.VerifyServerProcess, Solaris.GetStartTime, hproc, hfs,
      Option.isSome_some, Bool.not_true, Bool.false_or, Option.getD_some]
    exact sprintfLu_beq_false (Ne.symm hne)

/-- Witness for C1: in `sampleWorldStale` the record file stores the stale
start time `"3"` while pid 42 now has `pr_start = {tv_sec = 5, tv_nsec = 7}`;
both platform checks reject it. -/
theorem c1_witness :
    Illumos.VerifyServerProcess sampleWorldStale 42 ["b"] = false ∧
    Solaris.VerifyServerProcess sampleWorldStale 42 ["b"] = false := by
  have h := c1_pid_reuse_detected sampleWorldStale 42 ["b"] 3 ⟨⟨5, 7⟩⟩ rfl rfl
  exact ⟨h.1 (by decide), h.2 (by decide)⟩

/-- Claim C2: if `record` (`WriteSystemSpecificProcessIdentifier`) succeeds
for `pid` with server directory `<output_base>/server`, and at check time
the process at `pid` still has the same process-table entry while the
record file is unchanged, then `check(pid, output_base)`
(`VerifyServerProcess`) returns `true`, on both platform variants. -/
theorem c2_record_then_check (w w1 w2 : World) (output_base : List String) (pid : Nat) :
    (Illumos.WriteSystemSpecificProcessIdentifier w (output_base ++ ["server"]) pid = .ok w1 →
      w2.fs (output_base ++ ["server", "server.starttime"]) =
        w1.fs (output_base ++ ["server", "server.starttime"]) →
      w2.proc pid = w.proc pid →
      Illumos.VerifyServerProcess w2 pid output_base = true) ∧
    (Solaris.WriteSystemSpecificProcessIdentifier w (output_base ++ ["server"]) pid = .ok w1 →
      w2.fs (output_base ++ ["server", "server.starttime"]) =
        w1.fs (output_base ++ ["server", "server.starttime"]) →
      w2.proc pid = w.proc pid →
      Solaris.VerifyServerProcess w2 pid output_base = true) := by
  constructor
  · intro hrec hfs hproc
    rcases hp : w.proc pid with _ | info
    · simp [Illumos.WriteSystemSpecificProcessIdentifier, Illumos.GetStartTime, hp] at hrec
    · simp only [Illumos.WriteSystemSpecificProcessIdentifier, Illumos.GetStartTime, hp] at hrec
      split at hrec
      · injection hrec with hrec1
        subst hrec1
        simp only [List.append_assoc, List.singleton_append] at hfs
        simp at hfs
        simp [Illumos.VerifyServerProcess, Illumos.GetStartTime, hproc, hp, hfs]
      · exact (Except.noConfusion hrec)
  · intro hrec hfs hproc
    rcases hp : w.proc pid with _ | info
    · simp [Solaris.WriteSystemSpecificProcessIdentifier, Solaris.GetStartTime, hp] at hrec
    · simp only [Solaris.WriteSystemSpecificProcessIdentifier, Solaris.GetStartTime, hp] at hrec
      split at hrec
      · injection hrec with hrec1
        subst hrec1
        simp only [List.append_assoc, List.singleton_append] at hfs
        simp at hfs
        simp [Solaris.VerifyServerProcess, Solaris.GetStartTime, hproc, hp, hfs]
      · exact (Except.noConfusion hrec)

/-- Witness for C2: after each platform's `record` for pid 42 under server
directory `["b", "server"]`, that platform's check for pid 42 at output
base `["b"]` accepts. -/
theorem c2_witness :
    Illumos.VerifyServerProcess sampleWorldIllRec 42 ["b"] = true ∧
    Solaris.VerifyServerProcess sampleWorldSolRec 42 ["b"] = true :=
  ⟨(c2_record_then_check sampleWorld sampleWorldIllRec sampleWorldIllRec ["b"] 42).1
      rfl rfl rfl,
   (c2_record_then_check sampleWorld sampleWorldSolRec sampleWorldSolRec ["b"] 42).2
      rfl rfl rfl⟩

/-- Claim C3: whenever `read_start_time(pid)` (`GetStartTime`) returns
`NotFound` (`none`), `check(pid, path)` returns `false` on both platform
variants, regardless of the record-file contents — including under the
Solaris (Lenient) missing-record policy. -/
theorem c3_notfound_check_false (w : World) (pid : Nat) (output_base : List String) :
    (Illumos.GetStartTime w.proc pid = none →
      Illumos.VerifyServerProcess w pid output_base = false) ∧
    (Solaris.GetStartTime w.proc pid = none →
      Solaris.VerifyServerProcess w pid output_base = false) := by
  constructor
  · intro h
    simp only [Illumos.VerifyServerProcess, h]
  · intro h
    simp only [Solaris.VerifyServerProcess, h]

/-- Witness for C3: pid 1 is not in `sampleWorldStale`'s process table, and
both checks return `false` even though a record file is present. -/
theorem c3_witness :
    Illumos.VerifyServerProcess sampleWorldStale 1 ["b"] = false ∧
    Solaris.VerifyServerProcess sampleWorldStale 1 ["b"] = false := by
  have h := c3_notfound_check_false sampleWorldStale 1 ["b"]
  exact ⟨h.1 rfl, h.2 rfl⟩

/-- Claim C4 (amended): for every `pid` whose live start time is readable
and every output base with no record file present, each platform's check
returns a fixed deterministic value independent of `pid` — `false` on
Illumos (Strict behavior) and `true` on Solaris (Lenient behavior).  The
policy is hard-wired per platform, not an explicit parameter. -/
theorem c4_missing_record_policy (w : World) (pid : Nat) (output_base : List String)
    (info : Psinfo) (hp : w.proc pid = some info)
    (hfs : w.fs (output_base ++ ["server", "server.starttime"]) = none) :
    Illumos.VerifyServerProcess w pid output_base = false ∧
    Solaris.VerifyServerProcess w pid output_base = true := by
  constructor
  · simp only [Illumos.VerifyServerProcess, Illumos.GetStartTime, hp, hfs,
      Option.getD_none]
    exact empty_beq_sprintfLu _
  · simp [Solaris.VerifyServerProcess, Solaris.GetStartTime, hp, hfs]

/-- Counterexample for C4 as stated: at the same concrete state (live pid
42, no record file anywhere) the two platform variants disagree on the
check result, so the missing-record policy is a per-platform ambiguity,
not a single explicit parameter of the implementation. -/
theorem c4_counterexample :
    Illumos.VerifyServerProcess sampleWorld 42 ["b"] = false ∧
    Solaris.VerifyServerProcess sampleWorld 42 ["b"] = true ∧
    Illumos.VerifyServerProcess sampleWorld 42 ["b"] ≠
      Solaris.VerifyServerProcess sampleWorld 42 ["b"] := by
  have h1 : Illumos.VerifyServerProcess sampleWorld 42 ["b"] = false :=
    empty_beq_sprintfLu 5
  have h2 : Solaris.VerifyServerProcess sampleWorld 42 ["b"] = true := rfl
  refine ⟨h1, h2, ?_⟩
  rw [h1, h2]
  exact Bool.false_ne_true

/-- Witness for C4 (amended): pid 42 is live in `sampleWorld` and no record
file is present; Illumos rejects, Solaris accepts. -/
theorem c4_witness :
    Illumos.VerifyServerProcess sampleWorld 42 ["b"] = false ∧
    Solaris.VerifyServerProcess sampleWorld 42 ["b"] = true :=
  c4_missing_record_policy sampleWorld 42 ["b"] ⟨⟨5, 7⟩⟩ rfl rfl

/-- Claim C5 (divergence evaluation): the two platform variants do not
implement identical identity-verification logic.  For the process table
`sampleProc` (pid 42, `pr_start = {tv_sec = 5, tv_nsec = 7}`) the Illumos
`GetStartTime` renders `tv_sec` while the Solaris one renders `tv_nsec`,
so the start-time values differ; and on a missing record file the Illumos
`VerifyServerProcess` returns `false` while the Solaris one returns
`true`. -/
theorem c5_variants_diverge :
    Illumos.GetStartTime sampleProc 42 = some (sprintfLu 5) ∧
    Solaris.GetStartTime sampleProc 42 = some (sprintfLu 7) ∧
    Illumos.GetStartTime sampleProc 42 ≠ Solaris.GetStartTime sampleProc 42 ∧
    Illumos.VerifyServerProcess sampleWorld 42 ["b"] ≠
      Solaris.VerifyServerProcess sampleWorld 42 ["b"] := by
  refine ⟨rfl, rfl, ?_, ?_⟩
  · intro h
    have h5 : sprintfLu 5 = sprintfLu 7 := Option.some.inj h
    exact absurd (sprintfLu_injective h5) (by decide)
  · intro h
    have h1 : Illumos.VerifyServerProcess sampleWorld 42 ["b"] = false :=
      empty_beq_sprintfLu 5
    have h2 : Solaris.VerifyServerProcess sampleWorld 42 ["b"] = true := rfl
    rw [h1, h2] at h
    exact Bool.false_ne_true h

/-- Claim C6: `record` (`WriteSystemSpecificProcessIdentifier`) ends in a
fatal error in exactly two cases — the reader returns `NotFound` for the
pid (`cannotGetStartTime`), or the write of the record file fails
(`cannotWriteStartTime`) — and in every other case it completes
successfully; on both platform variants. -/
theorem c6_record_failure_characterization (w : World) (server_dir : List String)
    (pid : Nat) :
    (((∃ w1, Illumos.WriteSystemSpecificProcessIdentifier w server_dir pid = .ok w1) ↔
        ((w.proc pid).isSome = true ∧
          w.writeOk (server_dir ++ ["server.starttime"]) = true)) ∧
      (Illumos.WriteSystemSpecificProcessIdentifier w server_dir pid =
          .error .cannotGetStartTime ↔ w.proc pid = none) ∧
      (Illumos.WriteSystemSpecificProcessIdentifier w server_dir pid =
          .error .cannotWriteStartTime ↔
        ((w.proc pid).isSome = true ∧
          w.writeOk (server_dir ++ ["server.starttime"]) = false))) ∧
    (((∃ w1, Solaris.WriteSystemSpecificProcessIdentifier w server_dir pid = .ok w1) ↔
        ((w.proc pid).isSome = true ∧
          w.writeOk (server_dir ++ ["server.starttime"]) = true)) ∧
      (Solaris.WriteSystemSpecificProcessIdentifier w server_dir pid =
          .error .cannotGetStartTime ↔ w.proc pid = none) ∧
      (Solaris.WriteSystemSpecificProcessIdentifier w server_dir pid =
          .error .cannotWriteStartTime ↔
        ((w.proc pid).isSome = true ∧
          w.writeOk (server_dir ++ ["server.starttime"]) = false))) := by
  rcases hp : w.proc pid with _ | info <;>
    rcases hw : w.writeOk (server_dir ++ ["server.starttime"]) with _ | _ <;>
    simp [Illumos.WriteSystemSpecificProcessIdentifier, Illumos.GetStartTime,
      Solaris.WriteSystemSpecificProcessIdentifier, Solaris.GetStartTime, hp, hw]

/-- Witness for C6: in `sampleWorld` (live pid 42, all writes succeed)
both platform `record`s complete successfully. -/
theorem c6_witness :
    (∃ w1, Illumos.WriteSystemSpecificProcessIdentifier sampleWorld ["b", "server"] 42 =
      .ok w1) ∧
    (∃ w1, Solaris.WriteSystemSpecificProcessIdentifier sampleWorld ["b", "server"] 42 =
      .ok w1) :=
  ⟨((c6_record_failure_characterization sampleWorld ["b", "server"] 42).1.1).mpr
      ⟨rfl, rfl⟩,
   ((c6_record_failure_characterization sampleWorld ["b", "server"] 42).2.1).mpr
      ⟨rfl, rfl⟩⟩

/-- Claim C7: for every `ProcessId` that does not correspond to a live
process (the `/proc` entry is absent or the read of `psinfo_t` fails —
both modelled by the process table returning `none`), `GetStartTime`
returns `NotFound` (`none`) as a normal return value; its return type
carries no fatal-error case. -/
theorem c7_dead_pid_notfound (proc : Nat → Option Psinfo) (pid : Nat)
    (h : proc pid = none) :
    Illumos.GetStartTime proc pid = none ∧ Solaris.GetStartTime proc pid = none := by
  simp [Illumos.GetStartTime, Solaris.GetStartTime, h]

/-- Witness for C7: pid 1 is dead in `sampleProc`. -/
theorem c7_witness :
    Illumos.GetStartTime sampleProc 1 = none ∧ Solaris.GetStartTime sampleProc 1 = none :=
  c7_dead_pid_notfound sampleProc 1 rfl

/-- Claim C8: for a pid that resolves in the process table (as the calling
process's own pid always does) and a writable storage location, `record`
succeeds and the record it writes at
`<server_dir>/server.starttime` is the `%lu` textual encoding of the
`ProcessStartTime` field, which is non-empty; on both platform
variants. -/
theorem c8_record_own_pid (w : World) (server_dir : List String) (pid : Nat)
    (info : Psinfo) (hp : w.proc pid = some info)
    (hw : w.writeOk (server_dir ++ ["server.starttime"]) = true) :
    (∃ w1, Illumos.WriteSystemSpecificProcessIdentifier w server_dir pid = .ok w1 ∧
        w1.fs (server_dir ++ ["server.starttime"]) =
          some (sprintfLu info.pr_start.tv_sec)) ∧
    sprintfLu info.pr_start.tv_sec ≠ "" ∧
    (∃ w1, Solaris.WriteSystemSpecificProcessIdentifier w server_dir pid = .ok w1 ∧
        w1.fs (server_dir ++ ["server.starttime"]) =
          some (sprintfLu info.pr_start.tv_nsec)) ∧
    sprintfLu info.pr_start.tv_nsec ≠ "" := by
  refine ⟨⟨fsUpdate w (server_dir ++ ["server.starttime"])
        (sprintfLu info.pr_start.tv_sec), ?_, ?_⟩,
      sprintfLu_ne_empty _,
      ⟨fsUpdate w (server_dir ++ ["server.starttime"])
        (sprintfLu info.pr_start.tv_nsec), ?_, ?_⟩,
      sprintfLu_ne_empty _⟩
  · simp [Illumos.WriteSystemSpecificProcessIdentifier, Illumos.GetStartTime, hp, hw,
      fsUpdate]
  · simp [fsUpdate]
  · simp [Solaris.WriteSystemSpecificProcessIdentifier, Solaris.GetStartTime, hp, hw,
      fsUpdate]
  · simp [fsUpdate]

/-- Witness for C8: recording pid 42 in `sampleWorld` under server
directory `["b", "server"]` succeeds on both platforms and stores the
non-empty rendering of the respective time field. -/
theorem c8_witness :
    (∃ w1, Illumos.WriteSystemSpecificProcessIdentifier sampleWorld ["b", "server"] 42 =
        .ok w1 ∧
      w1.fs (["b", "server"] ++ ["server.starttime"]) = some (sprintfLu 5)) ∧
    sprintfLu 5 ≠ "" ∧
    (∃ w1, Solaris.WriteSystemSpecificProcessIdentifier sampleWorld ["b", "server"] 42 =
        .ok w1 ∧
      w1.fs (["b", "server"] ++ ["server.starttime"]) = some (sprintfLu 7)) ∧
    sprintfLu 7 ≠ "" :=
  c8_record_own_pid sampleWorld ["b", "server"] 42 ⟨⟨5, 7⟩⟩ rfl rfl

/-- Claim C9: `record` and `check` address the same single persisted file.
The path `record` writes for server directory `<output_base>/server`,
namely `<server_dir>/server.starttime`, is exactly the path `check` reads,
`<output_base>/server/server.starttime`; `record` changes the filesystem
at no other path and leaves some content at that path; and `check`'s
result depends on the filesystem only through that path. -/
theorem c9_storage_agreement (w w1 : World) (output_base : List String) (pid : Nat) :
    ((output_base ++ ["server"]) ++ ["server.starttime"] =
        output_base ++ ["server", "server.starttime"]) ∧
    (Illumos.WriteSystemSpecificProcessIdentifier w (output_base ++ ["server"]) pid =
        .ok w1 →
      (∃ s, w1.fs (output_base ++ ["server", "server.starttime"]) = some s) ∧
      ∀ q, q ≠ output_base ++ ["server", "server.starttime"] → w1.fs q = w.fs q) ∧
    (Solaris.WriteSystemSpecificProcessIdentifier w (output_base ++ ["server"]) pid =
        .ok w1 →
      (∃ s, w1.fs (output_base ++ ["server", "server.starttime"]) = some s) ∧
      ∀ q, q ≠ output_base ++ ["server", "server.starttime"] → w1.fs q = w.fs q) ∧
    (∀ w2 : World, w2.proc = w.proc →
      w2.fs (output_base ++ ["server", "server.starttime"]) =
        w.fs (output_base ++ ["server", "server.starttime"]) →
      Illumos.VerifyServerProcess w2 pid output_base =
        Illumos.VerifyServerProcess w pid output_base ∧
      Solaris.VerifyServerProcess w2 pid output_base =
        Solaris.VerifyServerProcess w pid output_base) := by
  have hpath : (output_base ++ ["server"]) ++ ["server.starttime"] =
      output_base ++ ["server", "server.starttime"] := by simp
  refine ⟨hpath, ?_, ?_, ?_⟩
  · intro hrec
    rcases hp : w.proc pid with _ | info
    · simp [Illumos.WriteSystemSpecificProcessIdentifier, Illumos.GetStartTime, hp] at hrec
    · simp only [Illumos.WriteSystemSpecificProcessIdentifier, Illumos.GetStartTime,
        hp] at hrec
      split at hrec
      · injection hrec with hrec1
        subst hrec1
        constructor
        · exact ⟨sprintfLu info.pr_start.tv_sec, by simp [hpath]⟩
        · intro q hq
          simp only [hpath]
          exact if_neg hq
      · exact (Except.noConfusion hrec)
  · intro hrec
    rcases hp : w.proc pid with _ | info
    · simp [Solaris.WriteSystemSpecificProcessIdentifier, Solaris.GetStartTime, hp] at hrec
    · simp only [Solaris.WriteSystemSpecificProcessIdentifier, Solaris.GetStartTime,
        hp] at hrec
      split at hrec
      · injection hrec with hrec1
        subst hrec1
        constructor
        · exact ⟨sprintfLu info.pr_start.tv_nsec, by simp [hpath]⟩
        · intro q hq
          simp only [hpath]
          exact if_neg hq
      · exact (Except.noConfusion hrec)
  · intro w2 hproc hfs
    constructor
    · simp only [Illumos.VerifyServerProcess, Illumos.GetStartTime, hproc, hfs]
    · simp only [Solaris.VerifyServerProcess, Solaris.GetStartTime, hproc, hfs]

/-- Witness for C9: after the Illumos `record` in `sampleWorld`, the check
path of output base `["b"]` holds a record and an unrelated path is
untouched. -/
theorem c9_witness :
    (∃ s, sampleWorldIllRec.fs ["b", "server", "server.starttime"] = some s) ∧
    sampleWorldIllRec.fs ["x"] = sampleWorld.fs ["x"] := by
  have h := (c9_storage_agreement sampleWorld sampleWorldIllRec ["b"] 42).2.1 rfl
  exact ⟨h.1, h.2 ["x"] (by decide)⟩

/-- Claim C10: whenever `GetStartTime` succeeds, the produced start-time
string (the `%lu` rendering of the time field) is a non-empty sequence of
decimal digits; in particular it is never the empty string. -/
theorem c10_starttime_digits (proc : Nat → Option Psinfo) (pid : Nat) (s : String) :
    (Illumos.GetStartTime proc pid = some s →
      s ≠ "" ∧ ∀ c ∈ s.data, c.isDigit = true) ∧
    (Solaris.GetStartTime proc pid = some s →
      s ≠ "" ∧ ∀ c ∈ s.data, c.isDigit = true) := by
  constructor
  · intro h
    match hp : proc pid with
    | none => rw [Illumos.GetStartTime, hp] at h; cases h
    | some info =>
      rw [Illumos.GetStartTime, hp, Option.some.injEq] at h
      subst h
      exact ⟨sprintfLu_ne_empty _, sprintfLu_isDigit _⟩
  · intro h
    match hp : proc pid with
    | none => rw [Solaris.GetStartTime, hp] at h; cases h
    | some info =>
      rw [Solaris.GetStartTime, hp, Option.some.injEq] at h
      subst h
      exact ⟨sprintfLu_ne_empty _, sprintfLu_isDigit _⟩

/-- Witness for C10: the start-time strings read for pid 42 in `sampleProc`
are non-empty all-digit strings on both platforms. -/
theorem c10_witness :
    (sprintfLu 5 ≠ "" ∧ ∀ c ∈ (sprintfLu 5).data, c.isDigit = true) ∧
    (sprintfLu 7 ≠ "" ∧ ∀ c ∈ (sprintfLu 7).data, c.isDigit = true) :=
  ⟨(c10_starttime_digits sampleProc 42 (sprintfLu 5)).1 rfl,
   (c10_starttime_digits sampleProc 42 (sprintfLu 7)).2 rfl⟩

end Blaze
